import Mathlib

/-!
Verification development for the django-ca CA management engine.

The repository under verification ships only its test suite, a data
migration and a deployment script; the production modules (models,
managers, the init_ca command, utils) are absent.  Definitions for those
modules are therefore modelled from the specification (spec.md), as their
doc comments state; the migration file is embedded directly from
src/ca/django_ca/migrations/0005_auto_20160305_1415.py.
-/

namespace DjangoCA

/-- Modelled from the spec: the error taxonomy of section 7 for the missing
production modules (WeakKeyError, MissingPasswordError, DecryptionError,
HierarchyError, ConfigurationError); string payloads carry the user-visible
message where the spec or the tests fix one. -/
inductive CAError where
  | WeakKeyError : CAError
  | MissingPasswordError : String → CAError
  | DecryptionError : String → CAError
  | HierarchyError : String → CAError
  | ConfigurationError : String → CAError
deriving DecidableEq, Repr

/-- Modelled from the spec: the key types whose size is policed by the
KeyMaterial Store (section 4.1 constrains RSA and DSA key sizes). -/
inductive KeyType where
  | RSA : KeyType
  | DSA : KeyType
deriving DecidableEq, Repr

/-- Modelled from the spec: a generated key pair, recording the type and
size requested at generation (section 4.1). -/
structure KeyPair where
  key_type : KeyType
  key_size : Nat
deriving DecidableEq, Repr

/-- Fuel-driven worker for the power-of-two test: n is a power of two when
repeated halving of n reaches 1 through even numbers only. -/
def isPow2Aux : Nat → Nat → Bool
  | _, 0 => false
  | 0, _ + 1 => false
  | _ + 1, 1 => true
  | fuel + 1, n + 2 => (n + 2) % 2 == 0 && isPow2Aux fuel ((n + 2) / 2)

/-- Modelled from the spec: the power-of-two test on key sizes required by
section 4.1 for the missing key-validation code. -/
def isPowerOfTwo (n : Nat) : Bool := isPow2Aux n n

/-- Modelled from the spec: generate of the KeyMaterial Store (section 4.1);
for RSA and DSA the key size must be a power of two and at least the
configured minimum, otherwise generation fails with WeakKeyError before any
key material is produced. -/
def generate (min_key_size : Nat) (kt : KeyType) (key_size : Nat) :
    Except CAError KeyPair :=
  if isPowerOfTwo key_size = true ∧ min_key_size ≤ key_size then
    Except.ok ⟨kt, key_size⟩
  else
    Except.error CAError.WeakKeyError

/-- Modelled from the spec: private key material at rest (section 4.1);
the password field records the password the key was encrypted with, or none
when stored unencrypted. -/
structure StoredKey where
  pair : KeyPair
  password : Option String
deriving DecidableEq, Repr

/-- Modelled from the spec: persist of the KeyMaterial Store (section 4.1);
with a password the private key is encrypted at rest. -/
def persist (kp : KeyPair) (password : Option String) : StoredKey :=
  ⟨kp, password⟩

/-- Message of MissingPasswordError, fixed by the tests
(tests_command_init_ca.test_password). -/
def missingPasswordMsg : String := "Password was not given but private key is encrypted"

/-- Message of DecryptionError, fixed by the tests
(tests_command_init_ca.test_password). -/
def badDecryptMsg : String := "Bad decrypt. Incorrect password?"

/-- Modelled from the spec: load of the KeyMaterial Store (section 4.1);
fails with MissingPasswordError if the key is encrypted and no password is
supplied, with DecryptionError on a wrong password (authenticated
decryption, never garbage key material). -/
def load (k : StoredKey) (password : Option String) : Except CAError KeyPair :=
  match k.password, password with
  | none, _ => Except.ok k.pair
  | some _, none => Except.error (CAError.MissingPasswordError missingPasswordMsg)
  | some p, some q =>
      if p = q then Except.ok k.pair
      else Except.error (CAError.DecryptionError badDecryptMsg)

/-- Character-list matcher: when pre is an initial segment of the second
list, return the remainder, otherwise none. -/
def dropPre : List Char → List Char → Option (List Char)
  | [], rest => some rest
  | _ :: _, [] => none
  | a :: pre, b :: rest => if a = b then dropPre pre rest else none

/-- Modelled from the spec: parsing of one name-constraint directive of the
form permitted,(general-name) or excluded,(general-name) (section 4.3);
true tags a permitted entry, false an excluded one. -/
def parse_nc (d : String) : Option (Bool × String) :=
  match dropPre "permitted,".data d.data with
  | some g => some (true, ⟨g⟩)
  | none =>
    match dropPre "excluded,".data d.data with
    | some g => some (false, ⟨g⟩)
    | none => none

/-- Modelled from the spec: parsing of a list of name-constraint directives
into the two sets (permitted, excluded) of section 4.3. -/
def parseNameConstraints : List String → List String × List String
  | [] => ([], [])
  | d :: rest =>
    let r := parseNameConstraints rest
    match parse_nc d with
    | some (true, g) => (g :: r.1, r.2)
    | some (false, g) => (r.1, g :: r.2)
    | none => r

/-- Modelled from the spec: the resolved NameConstraints extension of
section 4.3 as the tests render it, a critical flag with the textual
entries; the extension is omitted entirely (none) when both sets are
empty. -/
def nameConstraintsExt (ds : List String) : Option (Bool × List String) :=
  let r := parseNameConstraints ds
  if r.1 = [] ∧ r.2 = [] then none
  else
    some (true, r.1.map (fun g => "Permitted: " ++ g) ++
                r.2.map (fun g => "Excluded: " ++ g))

theorem string_data_append (a b : String) : (a ++ b).data = a.data ++ b.data := by
  cases a
  cases b
  rfl

theorem dropPre_self_append (pre rest : List Char) :
    dropPre pre (pre ++ rest) = some rest := by
  induction pre with
  | nil => rfl
  | cons a t ih => simp [dropPre, ih]

theorem parse_nc_permitted (g : String) :
    parse_nc ("permitted," ++ g) = some (true, g) := by
  unfold parse_nc
  rw [string_data_append, dropPre_self_append]

theorem parse_nc_excluded (g : String) :
    parse_nc ("excluded," ++ g) = some (false, g) := by
  unfold parse_nc
  rw [string_data_append]
  have h1 : "permitted,".data = 'p' :: "ermitted,".data := rfl
  have h2 : "excluded,".data = 'e' :: "xcluded,".data := rfl
  rw [h1, h2]
  simp [dropPre]

/-- The string form of a tagged name-constraint entry. -/
def tagStr (t : Bool × String) : String :=
  (if t.1 then "permitted," else "excluded,") ++ t.2

theorem parseNameConstraints_tagged (tagged : List (Bool × String)) :
    parseNameConstraints (tagged.map tagStr) =
      ((tagged.filter (fun t => t.1)).map (fun t => t.2),
       (tagged.filter (fun t => !t.1)).map (fun t => t.2)) := by
  induction tagged with
  | nil => rfl
  | cons t rest ih =>
    obtain ⟨b, g⟩ := t
    cases b with
    | true =>
      simp only [List.map_cons, parseNameConstraints, ih]
      rw [show tagStr (true, g) = "permitted," ++ g from rfl, parse_nc_permitted]
      simp [List.filter]
    | false =>
      simp only [List.map_cons, parseNameConstraints, ih]
      rw [show tagStr (false, g) = "excluded," ++ g from rfl, parse_nc_excluded]
      simp [List.filter]

/-- Modelled from the spec: the CertificateAuthority record of section 3:
identity, hierarchy data (requested pathlen, effective max_pathlen where
none is unconstrained, parent link), expiry (a timestamp), key material and
the identifier and name-constraint extension data the claims are about. -/
structure CertificateAuthority where
  name : String
  pathlen : Option Nat
  max_pathlen : Option Nat
  allows_intermediate_ca : Bool
  expires : Nat
  serial : Nat
  parent_name : Option String
  privkey : StoredKey
  pubkey : Nat
  ski : String
  aki : String
  nameConstraints : Option (Bool × List String)
deriving DecidableEq, Repr

/-- The persistent store of CA records. -/
abbrev Store := List CertificateAuthority

/-- Lookup of a CA record by name in the store. -/
def lookupCA (s : Store) (n : String) : Option CertificateAuthority :=
  s.find? (fun ca => ca.name == n)

/-- Modelled from the spec: the arguments of CA creation (sections 4.4 and
6): name, key parameters, optional encryption passwords, optional parent
record with the password unlocking its key, requested pathlen and expiry,
the CA-specific CRL and OCSP URLs and the name-constraint directives.  The
serial and the public key are inputs here because the source derives them
from the signing primitive, which the claims do not constrain. -/
structure InitArgs where
  name : String
  key_type : KeyType
  key_size : Nat
  password : Option String
  parent : Option CertificateAuthority
  parent_password : Option String
  pathlen : Option Nat
  expires : Nat
  serial : Nat
  pubkey : Nat
  ca_crl_url : Option String
  ca_ocsp_url : Option String
  name_constraint : List String
deriving Repr

/-- Modelled from the spec: the effective max_pathlen of a child under a
parent constraint (section 4.4 step 2): unconstrained parent passes the
requested value through; a finite parent budget m caps the child at m - 1,
an unconstrained request counting as larger than any finite value. -/
def child_max_pathlen : Option Nat → Option Nat → Option Nat
  | none, requested => requested
  | some m, none => some (m - 1)
  | some m, some r => some (min r (m - 1))

/-- Message of the pathlen HierarchyError (section 4.4 step 2). -/
def hierarchyMsg : String :=
  "Parent CA cannot create intermediate CA due to pathlen restrictions"

/-- Message of the root-CRL ConfigurationError (tests_command_init_ca
fixes the trailing period). -/
def crlRootMsg : String := "CRLs cannot be used to revoke root CAs."

/-- Message of the root-OCSP ConfigurationError (tests_command_init_ca
fixes the trailing period). -/
def ocspRootMsg : String := "OCSP cannot be used to revoke root CAs."

/-- Modelled from the spec: section 4.4 step 2; without a parent the
effective max_pathlen is the requested pathlen; with a parent whose
remaining budget is exhausted (finite max_pathlen of zero, the only finite
value at most zero over naturals) creation fails with HierarchyError,
otherwise the child budget is computed by child_max_pathlen. -/
def hierStep (parent : Option CertificateAuthority) (requested : Option Nat) :
    Except CAError (Option Nat) :=
  match parent with
  | none => Except.ok requested
  | some p =>
    if p.max_pathlen = some 0 then
      Except.error (CAError.HierarchyError hierarchyMsg)
    else
      Except.ok (child_max_pathlen p.max_pathlen requested)

/-- Modelled from the spec: section 4.4 step 3; a CA may sign an
intermediate CA when its effective max_pathlen is unconstrained or
positive. -/
def allowsIntermediate : Option Nat → Bool
  | none => true
  | some m => decide (0 < m)

/-- Modelled from the spec: section 4.4 step 4; a requested expiry past the
parent expiry is silently clamped to the parent expiry. -/
def resolveExpires (parent : Option CertificateAuthority) (requested : Nat) : Nat :=
  match parent with
  | none => requested
  | some p => if p.expires < requested then p.expires else requested

/-- Modelled from the spec: section 4.3; a root CA (no parent) rejects a
CA-specific CRL URL for itself with ConfigurationError, and likewise a
CA-specific OCSP URL; the CRL check comes first. -/
def configStep (parent : Option CertificateAuthority)
    (ca_crl_url ca_ocsp_url : Option String) : Except CAError Unit :=
  match parent with
  | some _ => Except.ok ()
  | none =>
    match ca_crl_url with
    | some _ => Except.error (CAError.ConfigurationError crlRootMsg)
    | none =>
      match ca_ocsp_url with
      | some _ => Except.error (CAError.ConfigurationError ocspRootMsg)
      | none => Except.ok ()

/-- Modelled from the spec: section 4.4 step 5; a root CA self-signs with
the freshly generated in-memory key, an intermediate CA is signed with the
parent private key, which must first be loaded with the parent password
(propagating MissingPasswordError and DecryptionError). -/
def signStep (parent : Option CertificateAuthority)
    (parent_password : Option String) : Except CAError Unit :=
  match parent with
  | none => Except.ok ()
  | some p => (load p.privkey parent_password).map (fun _ => ())

/-- Modelled from the spec: the CA record assembled at the end of the
creation protocol; the subject key identifier is the digest of the public
key (section 4.2) and the authority key identifier is a keyid reference to
the issuer subject key identifier, the issuer being the parent when present
and the CA itself for a self-signed root. -/
def mkCA (digest : Nat → String) (args : InitArgs) (kp : KeyPair)
    (mp : Option Nat) : CertificateAuthority :=
  { name := args.name
    pathlen := args.pathlen
    max_pathlen := mp
    allows_intermediate_ca := allowsIntermediate mp
    expires := resolveExpires args.parent args.expires
    serial := args.serial
    parent_name := args.parent.map (fun p => p.name)
    privkey := persist kp args.password
    pubkey := args.pubkey
    ski := digest args.pubkey
    aki := "keyid:" ++ (match args.parent with
                        | none => digest args.pubkey
                        | some p => p.ski)
    nameConstraints := nameConstraintsExt args.name_constraint }

/-- Modelled from the spec: the CA creation protocol of section 4.4 in
order: key-parameter validation, hierarchy check and effective pathlen,
root URL configuration checks, signing (loading the parent key when an
intermediate is created), then persistence of the single new record. -/
def init_ca (digest : Nat → String) (min_key_size : Nat) (args : InitArgs)
    (s : Store) : Except CAError (CertificateAuthority × Store) :=
  match generate min_key_size args.key_type args.key_size with
  | Except.error e => Except.error e
  | Except.ok kp =>
    match hierStep args.parent args.pathlen with
    | Except.error e => Except.error e
    | Except.ok mp =>
      match configStep args.parent args.ca_crl_url args.ca_ocsp_url with
      | Except.error e => Except.error e
      | Except.ok _ =>
        match signStep args.parent args.parent_password with
        | Except.error e => Except.error e
        | Except.ok _ =>
          Except.ok (mkCA digest args kp mp, s ++ [mkCA digest args kp mp])

/-- Modelled from the spec: the transactional wrapper of section 7; a
failed creation leaves the store exactly as it was, a successful one
installs the new store. -/
def run_init (digest : Nat → String) (min_key_size : Nat) (args : InitArgs)
    (s : Store) : Store :=
  match init_ca digest min_key_size args s with
  | Except.ok r => r.2
  | Except.error _ => s

theorem init_ca_ok_elim (digest : Nat → String) (min_key_size : Nat)
    (args : InitArgs) (s : Store) (c : CertificateAuthority) (s' : Store)
    (h : init_ca digest min_key_size args s = Except.ok (c, s')) :
    ∃ kp mp,
      generate min_key_size args.key_type args.key_size = Except.ok kp ∧
      hierStep args.parent args.pathlen = Except.ok mp ∧
      configStep args.parent args.ca_crl_url args.ca_ocsp_url = Except.ok () ∧
      signStep args.parent args.parent_password = Except.ok () ∧
      c = mkCA digest args kp mp ∧ s' = s ++ [c] := by
  unfold init_ca at h
  split at h
  · exact Except.noConfusion h
  next kp hgen =>
    split at h
    · exact Except.noConfusion h
    next mp hhier =>
      split at h
      · exact Except.noConfusion h
      next u hconf =>
        split at h
        · exact Except.noConfusion h
        next v hsign =>
          obtain ⟨h1, h2⟩ := Prod.mk.injEq .. ▸ Except.ok.inj h
          refine ⟨kp, mp, hgen, hhier, ?_, ?_, h1.symm, ?_⟩
          · cases u; exact hconf
          · cases v; exact hsign
          · rw [← h2, h1]

theorem isPow2Aux_iff : ∀ fuel n, 0 < n → n ≤ fuel →
    (isPow2Aux fuel n = true ↔ ∃ k, n = 2 ^ k) := by
  intro fuel
  induction fuel with
  | zero => intro n hn hf; omega
  | succ f ih =>
    intro n hn hf
    match n, hn with
    | 1, _ =>
      simp only [isPow2Aux, true_iff]
      exact ⟨0, rfl⟩
    | (m + 2), _ =>
      have hdiv_pos : 0 < (m + 2) / 2 := by omega
      have hdiv_le : (m + 2) / 2 ≤ f := by omega
      have hih := ih ((m + 2) / 2) hdiv_pos hdiv_le
      simp only [isPow2Aux, Bool.and_eq_true, beq_iff_eq, hih]
      constructor
      · rintro ⟨hmod, k, hk⟩
        refine ⟨k + 1, ?_⟩
        have := pow_succ 2 k
        omega
      · rintro ⟨k, hk⟩
        match k with
        | 0 => omega
        | j + 1 =>
          have := pow_succ 2 j
          have h2j : 1 ≤ 2 ^ j := Nat.one_le_two_pow
          constructor
          · omega
          · exact ⟨j, by omega⟩

/-- The power-of-two test agrees with the mathematical notion. -/
theorem isPowerOfTwo_iff (n : Nat) :
    isPowerOfTwo n = true ↔ ∃ k, n = 2 ^ k := by
  match n with
  | 0 =>
    simp only [isPowerOfTwo, isPow2Aux]
    constructor
    · intro h; exact absurd h (by simp)
    · rintro ⟨k, hk⟩
      have h2k : 1 ≤ 2 ^ k := Nat.one_le_two_pow
      omega
  | (m + 1) => exact isPow2Aux_iff (m + 1) (m + 1) (by omega) (by omega)

/-- C1: for every CA creation that succeeds, the resulting max_pathlen is
the requested pathlen when no parent is given; under a parent with finite
max_pathlen m it is min(requested, m - 1), an unconstrained request
counting as larger than any finite value; under a parent with
unconstrained max_pathlen it is exactly the requested pathlen. -/
theorem init_ca_max_pathlen (digest : Nat → String) (min_key_size : Nat)
    (args : InitArgs) (s : Store) (c : CertificateAuthority) (s' : Store)
    (h : init_ca digest min_key_size args s = Except.ok (c, s')) :
    c.max_pathlen =
      match args.parent with
      | none => args.pathlen
      | some p =>
        match p.max_pathlen, args.pathlen with
        | none, _ => args.pathlen
        | some m, none => some (m - 1)
        | some m, some r => some (min r (m - 1)) := by
  obtain ⟨kp, mp, hgen, hhier, hconf, hsign, hc, hs⟩ :=
    init_ca_ok_elim _ _ _ _ _ _ h
  subst hc
  simp only [mkCA]
  cases hp : args.parent with
  | none =>
    rw [hp] at hhier
    simp only [hierStep] at hhier
    exact (Except.ok.inj hhier).symm
  | some p =>
    rw [hp] at hhier
    simp only [hierStep] at hhier
    split at hhier
    · exact Except.noConfusion hhier
    · rw [← Except.ok.inj hhier]
      cases hpm : p.max_pathlen with
      | none => simp [child_max_pathlen, hpm]
      | some m =>
        cases hr : args.pathlen with
        | none => simp [child_max_pathlen, hpm, hr]
        | some r => simp [child_max_pathlen, hpm, hr]

/-- C2: under a parent whose effective max_pathlen is finite and exhausted
(zero, the only finite value at most zero over naturals), creation of an
intermediate CA fails with HierarchyError carrying the pathlen message,
and the store is left unchanged (no child CA is created); the key
parameters are assumed valid since the protocol validates them first. -/
theorem init_ca_parent_exhausted (digest : Nat → String) (min_key_size : Nat)
    (args : InitArgs) (s : Store) (p : CertificateAuthority)
    (hp : args.parent = some p)
    (hm : p.max_pathlen = some 0)
    (hk : isPowerOfTwo args.key_size = true ∧ min_key_size ≤ args.key_size) :
    init_ca digest min_key_size args s =
      Except.error (CAError.HierarchyError hierarchyMsg) ∧
    run_init digest min_key_size args s = s := by
  have hgen : generate min_key_size args.key_type args.key_size =
      Except.ok ⟨args.key_type, args.key_size⟩ := by
    unfold generate
    rw [if_pos hk]
  have hinit : init_ca digest min_key_size args s =
      Except.error (CAError.HierarchyError hierarchyMsg) := by
    unfold init_ca
    rw [hgen, hp]
    simp [hierStep, hm]
  refine ⟨hinit, ?_⟩
  unfold run_init
  rw [hinit]

/-- C3: creating an intermediate CA under a parent whose private key is
encrypted, without supplying a parent password, fails with
MissingPasswordError and persists nothing: the store is unchanged, so in
particular no CA row with the requested child name appears; the earlier
validations (key parameters, parent capacity) are assumed to pass since
the protocol runs them first. -/
theorem init_ca_missing_parent_password (digest : Nat → String)
    (min_key_size : Nat) (args : InitArgs) (s : Store)
    (p : CertificateAuthority) (pw : String)
    (hp : args.parent = some p)
    (henc : p.privkey.password = some pw)
    (hnopw : args.parent_password = none)
    (hk : isPowerOfTwo args.key_size = true ∧ min_key_size ≤ args.key_size)
    (hcap : p.max_pathlen ≠ some 0) :
    init_ca digest min_key_size args s =
      Except.error (CAError.MissingPasswordError missingPasswordMsg) ∧
    run_init digest min_key_size args s = s ∧
    lookupCA (run_init digest min_key_size args s) args.name =
      lookupCA s args.name := by
  have hgen : generate min_key_size args.key_type args.key_size =
      Except.ok ⟨args.key_type, args.key_size⟩ := by
    unfold generate
    rw [if_pos hk]
  have hinit : init_ca digest min_key_size args s =
      Except.error (CAError.MissingPasswordError missingPasswordMsg) := by
    unfold init_ca
    rw [hgen, hp]
    simp [hierStep, hcap, configStep, signStep, load, henc, hnopw, Except.map]
  have hrun : run_init digest min_key_size args s = s := by
    unfold run_init
    rw [hinit]
  exact ⟨hinit, hrun, by rw [hrun]⟩

/-- C4: a root CA creation (no parent) with a CA-specific CRL URL for the
CA itself fails with ConfigurationError carrying the CRL message; with a
CA-specific OCSP URL (and no CRL URL, the CRL check coming first) it fails
with ConfigurationError carrying the OCSP message; the key parameters are
assumed valid since the protocol validates them first. -/
theorem init_ca_root_revocation_urls (digest : Nat → String)
    (min_key_size : Nat) (args : InitArgs) (s : Store)
    (hroot : args.parent = none)
    (hk : isPowerOfTwo args.key_size = true ∧ min_key_size ≤ args.key_size) :
    (∀ u, args.ca_crl_url = some u →
      init_ca digest min_key_size args s =
        Except.error (CAError.ConfigurationError crlRootMsg)) ∧
    (args.ca_crl_url = none → ∀ u, args.ca_ocsp_url = some u →
      init_ca digest min_key_size args s =
        Except.error (CAError.ConfigurationError ocspRootMsg)) := by
  have hgen : generate min_key_size args.key_type args.key_size =
      Except.ok ⟨args.key_type, args.key_size⟩ := by
    unfold generate
    rw [if_pos hk]
  constructor
  · intro u hu
    unfold init_ca
    rw [hgen, hroot]
    simp [hierStep, configStep, hu]
  · intro hnocrl u hu
    unfold init_ca
    rw [hgen, hroot]
    simp [hierStep, configStep, hnocrl, hu]

/-- C5: a key generated with requested type and size, persisted encrypted
under a password, cannot be loaded without a password
(MissingPasswordError with the fixed message) nor with a wrong password
(DecryptionError, never garbage key material); loading with the correct
password returns the key, whose type and size are exactly those requested
at generation. -/
theorem load_persisted_key (min_key_size : Nat) (kt : KeyType) (n : Nat)
    (kp : KeyPair) (pw : String)
    (h : generate min_key_size kt n = Except.ok kp) :
    load (persist kp (some pw)) none =
      Except.error (CAError.MissingPasswordError missingPasswordMsg) ∧
    (∀ w, w ≠ pw →
      load (persist kp (some pw)) (some w) =
        Except.error (CAError.DecryptionError badDecryptMsg)) ∧
    load (persist kp (some pw)) (some pw) = Except.ok kp ∧
    kp.key_type = kt ∧ kp.key_size = n := by
  have hkp : kp = ⟨kt, n⟩ := by
    unfold generate at h
    split at h
    · exact (Except.ok.inj h).symm
    · exact Except.noConfusion h
  refine ⟨rfl, ?_, ?_, ?_, ?_⟩
  · intro w hw
    have hne : ¬pw = w := fun hpw => hw hpw.symm
    simp [load, persist, hne]
  · simp [load, persist]
  · rw [hkp]
  · rw [hkp]

/-- C6: a requested RSA or DSA key size that is not a power of two or is
below the configured minimum makes generate fail with WeakKeyError, and a
CA creation requesting it fails the same way with nothing persisted. -/
theorem generate_weak_key (min_key_size : Nat) (kt : KeyType) (n : Nat)
    (h : isPowerOfTwo n = false ∨ n < min_key_size) :
    generate min_key_size kt n = Except.error CAError.WeakKeyError ∧
    (∀ (digest : Nat → String) (args : InitArgs) (s : Store),
      args.key_type = kt → args.key_size = n →
      init_ca digest min_key_size args s =
        Except.error CAError.WeakKeyError ∧
      run_init digest min_key_size args s = s) := by
  have hgen : generate min_key_size kt n = Except.error CAError.WeakKeyError := by
    unfold generate
    rw [if_neg]
    rintro ⟨h1, h2⟩
    rcases h with h | h
    · rw [h1] at h; exact Bool.noConfusion h
    · omega
  refine ⟨hgen, ?_⟩
  intro digest args s ht hn
  have hinit : init_ca digest min_key_size args s =
      Except.error CAError.WeakKeyError := by
    unfold init_ca
    rw [ht, hn, hgen]
  exact ⟨hinit, by unfold run_init; rw [hinit]⟩

/-- C7: when an intermediate CA is created requesting an expiry later than
the parent expiry, creation proceeds without error and the resulting child
expiry is silently clamped to exactly the parent expiry. -/
theorem init_ca_expires_clamped (digest : Nat → String) (min_key_size : Nat)
    (args : InitArgs) (s : Store) (p : CertificateAuthority)
    (c : CertificateAuthority) (s' : Store)
    (hp : args.parent = some p)
    (hgt : p.expires < args.expires)
    (h : init_ca digest min_key_size args s = Except.ok (c, s')) :
    c.expires = p.expires := by
  obtain ⟨kp, mp, hgen, hhier, hconf, hsign, hc, hs⟩ :=
    init_ca_ok_elim _ _ _ _ _ _ h
  subst hc
  simp only [mkCA, resolveExpires, hp]
  rw [if_pos hgt]

/-- C8: the authority key identifier of a created CA is a keyid reference
to the issuer subject key identifier: the parent subject key identifier
for an intermediate CA, the own subject key identifier for a self-signed
root. -/
theorem init_ca_authority_key_id (digest : Nat → String) (min_key_size : Nat)
    (args : InitArgs) (s : Store) (c : CertificateAuthority) (s' : Store)
    (h : init_ca digest min_key_size args s = Except.ok (c, s')) :
    c.aki = "keyid:" ++ (match args.parent with
                         | none => c.ski
                         | some p => p.ski) := by
  obtain ⟨kp, mp, hgen, hhier, hconf, hsign, hc, hs⟩ :=
    init_ca_ok_elim _ _ _ _ _ _ h
  subst hc
  cases hp : args.parent with
  | none => simp [mkCA, hp]
  | some p => simp [mkCA, hp]

/-- C9: for every list of name-constraint directives of the form
permitted,(general-name) or excluded,(general-name), in any order, the
resolved NameConstraints extension is critical and exposes exactly the
permitted entries followed by exactly the excluded entries; it is omitted
when the directive list is empty, and a list touching only one of the two
sets yields only that set. -/
theorem nameConstraints_exact (tagged : List (Bool × String)) :
    nameConstraintsExt (tagged.map tagStr) =
      if tagged = [] then none
      else
        some (true,
          (tagged.filter (fun t => t.1)).map (fun t => "Permitted: " ++ t.2) ++
          (tagged.filter (fun t => !t.1)).map (fun t => "Excluded: " ++ t.2)) := by
  unfold nameConstraintsExt
  rw [parseNameConstraints_tagged]
  cases tagged with
  | nil => simp
  | cons t rest =>
    have hne : ¬((((t :: rest).filter (fun t => t.1)).map (fun t => t.2) = []) ∧
        (((t :: rest).filter (fun t => !t.1)).map (fun t => t.2) = [])) := by
      cases ht : t.1 <;> simp [List.filter_cons, ht]
    rw [if_neg hne, if_neg (List.cons_ne_nil t rest)]
    simp only [List.map_map]
    rfl

/-! Embedding of the one-time key import, from
src/ca/django_ca/migrations/0005_auto_20160305_1415.py. -/

/-- The settings read by the migration: CA_DIR plus the optional CA_CRT
and CA_KEY overrides (absent or None modelled as none). -/
structure MigSettings where
  CA_DIR : String
  CA_CRT : Option String
  CA_KEY : Option String
deriving DecidableEq, Repr

/-- The Python exception raised when the migration joins the None CA_KEY
setting with a path component. -/
inductive MigError where
  | nonePathJoin : MigError
deriving DecidableEq, Repr

/-- A flat filesystem: path paired with file contents. -/
abbrev FS := List (String × String)

def fsExists (fs : FS) (p : String) : Bool := fs.any (fun e => e.1 == p)

def fsRead (fs : FS) (p : String) : Option String :=
  (fs.find? (fun e => e.1 == p)).map (fun e => e.2)

def fsRemove (fs : FS) (p : String) : FS := fs.filter (fun e => e.1 != p)

def fsRename (fs : FS) (src dst : String) : FS :=
  match fsRead fs src with
  | none => fs
  | some c => (dst, c) :: fsRemove (fsRemove fs src) dst

def pathJoin (a b : String) : String := a ++ "/" ++ b

/-- The directory part of a path: everything before the final slash. -/
def dirname (p : String) : String :=
  match (p.data.reverse).dropWhile (fun c => c ≠ '/') with
  | [] => ""
  | _ :: t => ⟨t.reverse⟩

/-- The CertificateAuthority row created by the migration. -/
structure MigCA where
  name : String
  private_key_path : String
  pub : String
  serial : String
deriving DecidableEq, Repr

/-- The migration resolves the certificate location from CA_CRT, falling
back to ca.crt inside CA_DIR. -/
def resolve_ca_crt (st : MigSettings) : String :=
  match st.CA_CRT with
  | some p => p
  | none => pathJoin st.CA_DIR "ca.crt"

/-- The migration resolves the key location from CA_KEY; the fallback
branch joins the CA_KEY setting itself (None in that branch) with ca.key,
which raises instead of producing a path. -/
def resolve_ca_key (st : MigSettings) : Except MigError String :=
  match st.CA_KEY with
  | some p => Except.ok p
  | none => Except.error MigError.nonePathJoin

/-- import_ca of migration 0005: resolve both locations, return untouched
when either file is missing, otherwise create the Root CA row from the
certificate contents, rename the private key to (serial).pem in its
directory, remove the now-redundant certificate file and store the new key
path on the row. -/
def import_ca (st : MigSettings) (serial : String) (fs : FS)
    (cas : List MigCA) : Except MigError (FS × List MigCA) :=
  let ca_crt := resolve_ca_crt st
  match resolve_ca_key st with
  | Except.error e => Except.error e
  | Except.ok ca_key =>
    if fsExists fs ca_crt = false ∨ fsExists fs ca_key = false then
      Except.ok (fs, cas)
    else
      match fsRead fs ca_crt with
      | none => Except.ok (fs, cas)
      | some raw_crt =>
        let ca_key_new := pathJoin (dirname ca_key) (serial ++ ".pem")
        let fs1 := fsRemove (fsRename fs ca_key ca_key_new) ca_crt
        Except.ok (fs1, cas ++ [⟨"Root CA", ca_key_new, raw_crt, serial⟩])

/-! Concrete fixtures used by the witness theorems below. -/

/-- A concrete digest function for witnesses. -/
def dgW : Nat → String := fun _ => "CSKI"

/-- A concrete parent CA with an encrypted key and pathlen budget 1. -/
def parentW : CertificateAuthority :=
  { name := "Parent", pathlen := some 1, max_pathlen := some 1,
    allows_intermediate_ca := true, expires := 100, serial := 1,
    parent_name := none, privkey := ⟨⟨KeyType.RSA, 8⟩, some "pw"⟩, pubkey := 5,
    ski := "PSKI", aki := "keyid:PSKI", nameConstraints := none }

/-- A concrete parent CA whose pathlen budget is exhausted. -/
def parentZeroW : CertificateAuthority :=
  { parentW with name := "Zero", pathlen := some 0, max_pathlen := some 0 }

/-- Concrete creation arguments for an intermediate CA under parentW. -/
def argsW : InitArgs :=
  { name := "Child", key_type := KeyType.RSA, key_size := 8,
    password := none, parent := some parentW, parent_password := some "pw",
    pathlen := some 5, expires := 50, serial := 2, pubkey := 7,
    ca_crl_url := none, ca_ocsp_url := none, name_constraint := [] }

/-- Concrete creation arguments for a root CA. -/
def argsRootW : InitArgs :=
  { argsW with parent := none, parent_password := none }

/-- Concrete creation arguments under the exhausted parent. -/
def args2W : InitArgs := { argsW with parent := some parentZeroW }

/-- Concrete creation arguments with the parent password left out. -/
def args3W : InitArgs := { argsW with parent_password := none }

/-- Concrete root creation arguments with a CA-specific CRL URL. -/
def args4aW : InitArgs := { argsRootW with ca_crl_url := some "https://example.com" }

/-- Concrete root creation arguments with a CA-specific OCSP URL. -/
def args4bW : InitArgs := { argsRootW with ca_ocsp_url := some "https://example.com" }

/-- Concrete root creation arguments with key size 2049. -/
def args6W : InitArgs := { argsRootW with key_size := 2049 }

/-- Concrete creation arguments requesting an expiry past the parent. -/
def args7W : InitArgs := { argsW with expires := 200 }

/-- The CA produced by init_ca on argsW. -/
def c1resW : CertificateAuthority :=
  { name := "Child", pathlen := some 5, max_pathlen := some 0,
    allows_intermediate_ca := false, expires := 50, serial := 2,
    parent_name := some "Parent", privkey := ⟨⟨KeyType.RSA, 8⟩, none⟩,
    pubkey := 7, ski := "CSKI", aki := "keyid:PSKI", nameConstraints := none }

/-- The CA produced by init_ca on args7W, with the clamped expiry. -/
def c7resW : CertificateAuthority := { c1resW with expires := 100 }

/-- The CA produced by init_ca on argsRootW. -/
def rootResW : CertificateAuthority :=
  { c1resW with
    max_pathlen := some 5
    allows_intermediate_ca := true
    parent_name := none
    aki := "keyid:CSKI" }

/-- Witness for C1: a concrete creation under parentW (budget 1, request 5)
yields effective max_pathlen 0. -/
theorem init_ca_max_pathlen_witness :
    init_ca dgW 8 argsW [] = Except.ok (c1resW, [c1resW]) ∧
    c1resW.max_pathlen = some 0 :=
  ⟨rfl, init_ca_max_pathlen dgW 8 argsW [] c1resW [c1resW] rfl⟩

/-- Witness for C2: creation under the exhausted parentZeroW fails with the
HierarchyError and leaves the empty store empty. -/
theorem init_ca_parent_exhausted_witness :
    init_ca dgW 8 args2W [] =
      Except.error (CAError.HierarchyError hierarchyMsg) ∧
    run_init dgW 8 args2W [] = [] :=
  init_ca_parent_exhausted dgW 8 args2W [] parentZeroW rfl rfl
    ⟨by decide, by decide⟩

/-- Witness for C3: creation under the encrypted parentW without a parent
password fails with MissingPasswordError and persists nothing. -/
theorem init_ca_missing_parent_password_witness :
    init_ca dgW 8 args3W [] =
      Except.error (CAError.MissingPasswordError missingPasswordMsg) ∧
    run_init dgW 8 args3W [] = [] ∧
    lookupCA (run_init dgW 8 args3W []) args3W.name =
      lookupCA [] args3W.name :=
  init_ca_missing_parent_password dgW 8 args3W [] parentW "pw" rfl rfl rfl
    ⟨by decide, by decide⟩ (by decide)

/-- Witness for C4: concrete root creations carrying a CA-specific CRL URL
and a CA-specific OCSP URL fail with the two ConfigurationError
messages. -/
theorem init_ca_root_revocation_urls_witness :
    init_ca dgW 8 args4aW [] =
      Except.error (CAError.ConfigurationError crlRootMsg) ∧
    init_ca dgW 8 args4bW [] =
      Except.error (CAError.ConfigurationError ocspRootMsg) :=
  ⟨(init_ca_root_revocation_urls dgW 8 args4aW [] rfl
      ⟨by decide, by decide⟩).1 "https://example.com" rfl,
   (init_ca_root_revocation_urls dgW 8 args4bW [] rfl
      ⟨by decide, by decide⟩).2 rfl "https://example.com" rfl⟩

/-- Witness for C5: a concrete RSA key of size 8, persisted under password
pw, refuses loading without a password and with the wrong password xx, and
loads under pw with the requested type and size. -/
theorem load_persisted_key_witness :
    load (persist ⟨KeyType.RSA, 8⟩ (some "pw")) none =
      Except.error (CAError.MissingPasswordError missingPasswordMsg) ∧
    load (persist ⟨KeyType.RSA, 8⟩ (some "pw")) (some "xx") =
      Except.error (CAError.DecryptionError badDecryptMsg) ∧
    load (persist ⟨KeyType.RSA, 8⟩ (some "pw")) (some "pw") =
      Except.ok ⟨KeyType.RSA, 8⟩ ∧
    (⟨KeyType.RSA, 8⟩ : KeyPair).key_type = KeyType.RSA ∧
    (⟨KeyType.RSA, 8⟩ : KeyPair).key_size = 8 := by
  have h := load_persisted_key 8 KeyType.RSA 8 ⟨KeyType.RSA, 8⟩ "pw" rfl
  exact ⟨h.1, h.2.1 "xx" (by decide), h.2.2.1, h.2.2.2.1, h.2.2.2.2⟩

/-- Witness for C6: size 2049 (not a power of two) with minimum 1024 is
rejected with WeakKeyError by generate and by a creation requesting it,
which persists nothing. -/
theorem generate_weak_key_witness :
    generate 1024 KeyType.RSA 2049 = Except.error CAError.WeakKeyError ∧
    init_ca dgW 1024 args6W [] = Except.error CAError.WeakKeyError ∧
    run_init dgW 1024 args6W [] = [] := by
  have h := generate_weak_key 1024 KeyType.RSA 2049 (Or.inl (by decide))
  exact ⟨h.1, (h.2 dgW args6W [] rfl rfl).1, (h.2 dgW args6W [] rfl rfl).2⟩

/-- Witness for C7: requesting expiry 200 under parentW (expiry 100)
succeeds and the child expiry is exactly 100. -/
theorem init_ca_expires_clamped_witness :
    init_ca dgW 8 args7W [] = Except.ok (c7resW, [c7resW]) ∧
    c7resW.expires = 100 :=
  ⟨rfl, init_ca_expires_clamped dgW 8 args7W [] parentW c7resW [c7resW] rfl
    (by decide) rfl⟩

/-- Witness for C8: the concrete intermediate creation gets the keyid
reference to the parent subject key identifier, and the concrete root
creation references its own. -/
theorem init_ca_authority_key_id_witness :
    (init_ca dgW 8 argsW [] = Except.ok (c1resW, [c1resW]) ∧
      c1resW.aki = "keyid:" ++ parentW.ski) ∧
    (init_ca dgW 8 argsRootW [] = Except.ok (rootResW, [rootResW]) ∧
      rootResW.aki = "keyid:" ++ rootResW.ski) :=
  ⟨⟨rfl, init_ca_authority_key_id dgW 8 argsW [] c1resW [c1resW] rfl⟩,
   ⟨rfl, init_ca_authority_key_id dgW 8 argsRootW [] rootResW [rootResW] rfl⟩⟩

/-- C10: behavior of the key import of migration 0005 at concrete inputs:
with the CA_KEY setting absent the fallback path resolution joins None
with ca.key and raises instead of returning; with CA_KEY configured and
either file missing the import returns with no record created and no file
renamed or removed; with both files present it creates exactly one Root CA
record, renames the private key to (serial).pem in the key directory,
removes the redundant certificate file and stores the new key path on the
record. -/
theorem import_ca_behavior :
    import_ca ⟨"/ca", none, none⟩ "AB12" [] [] =
      Except.error MigError.nonePathJoin ∧
    import_ca ⟨"/ca", none, some "/keys/ca.key"⟩ "AB12" [] [] =
      Except.ok ([], []) ∧
    import_ca ⟨"/ca", none, some "/keys/ca.key"⟩ "AB12"
        [("/ca/ca.crt", "CRT"), ("/keys/ca.key", "KEY")] [] =
      Except.ok ([("/keys/AB12.pem", "KEY")],
        [⟨"Root CA", "/keys/AB12.pem", "CRT", "AB12"⟩]) :=
  ⟨rfl, rfl, rfl⟩

end DjangoCA
